import Mathlib

/-!
Verification of the vfinance valuation/analytics engine specification
against the repository sources.

Monetary amounts are modelled as rationals (JS numbers carry exact decimal
literals in every scenario considered here); an FX rate set maps
each currency code to its RON multiplier, with `none` standing for an absent
entry and a stored rate of `0` covering the remaining JS-falsy case.
-/

namespace VFinance

/-- Embeds `convertFromRon` from src/frontend/src/pages/DashboardPage.tsx
(lines 56-61): target RON is the identity; a missing or falsy rate falls
back to the unconverted RON amount; otherwise divide by the rate. -/
def convertFromRon (valueRon : ℚ) (targetCurrency : String) (fxRates : String → Option ℚ) : ℚ :=
  if targetCurrency = "RON" then valueRon
  else
    match fxRates targetCurrency with
    | none => valueRon
    | some rate => if rate = 0 then valueRon else valueRon / rate

/-- Embeds `convertRon` from src/frontend/src/components/ROIPanel.tsx
(lines 16-22): null input propagates; RON is the identity; a missing or
falsy rate yields null; otherwise divide by the rate. -/
def convertRon (valueRon : Option ℚ) (currency : String) (fxRates : String → Option ℚ) : Option ℚ :=
  match valueRon with
  | none => none
  | some v =>
    if currency = "RON" then some v
    else
      match fxRates currency with
      | none => none
      | some rate => if rate = 0 then none else some (v / rate)

/-- Modelled from the spec: the backend Currency Conversion Layer (spec 4.1)
is not under src/. Rate convention: rate[C] = RON value of 1 unit of C, so
RON itself resolves to 1. -/
def rateToRon (rates : String → Option ℚ) (c : String) : Option ℚ :=
  if c = "RON" then some 1 else rates c

/-- Modelled from the spec: the backend `convert(amount, from, to, rates)`
(spec 4.1) is not under src/. X→Y converts X→RON→Y; an unresolvable (absent
or falsy) currency fails, modelled as `none` (UnsupportedCurrencyError). -/
def convert (amount : ℚ) (srcC tgtC : String) (rates : String → Option ℚ) : Option ℚ :=
  match rateToRon rates srcC, rateToRon rates tgtC with
  | some rs, some rt => if rs = 0 ∨ rt = 0 then none else some (amount * rs / rt)
  | _, _ => none

theorem convertFromRon_ron (v : ℚ) (rates : String → Option ℚ) :
    convertFromRon v ("RON") rates = v := by
  simp [convertFromRon]

theorem convertFromRon_missing (v : ℚ) (c : String) (rates : String → Option ℚ)
    (hc : c ≠ "RON") (h : rates c = none) : convertFromRon v c rates = v := by
  simp [convertFromRon, hc, h]

theorem convertFromRon_zero_rate (v : ℚ) (c : String) (rates : String → Option ℚ)
    (hc : c ≠ "RON") (h : rates c = some 0) : convertFromRon v c rates = v := by
  simp [convertFromRon, hc, h]

theorem convertFromRon_rate (v r : ℚ) (c : String) (rates : String → Option ℚ)
    (hc : c ≠ "RON") (h : rates c = some r) (hr : r ≠ 0) :
    convertFromRon v c rates = v / r := by
  simp [convertFromRon, hc, h, hr]

theorem convertRon_missing (v : ℚ) (c : String) (rates : String → Option ℚ)
    (hc : c ≠ "RON") (h : rates c = none) : convertRon (some v) c rates = none := by
  simp [convertRon, hc, h]

theorem convertRon_zero_rate (v : ℚ) (c : String) (rates : String → Option ℚ)
    (hc : c ≠ "RON") (h : rates c = some 0) : convertRon (some v) c rates = none := by
  simp [convertRon, hc, h]

theorem convert_roundtrip (a rx ry : ℚ) (X Y : String) (rates : String → Option ℚ)
    (hx : rateToRon rates X = some rx) (hy : rateToRon rates Y = some ry)
    (hx0 : rx ≠ 0) (hy0 : ry ≠ 0) :
    (convert a X Y rates).bind (fun b => convert b Y X rates) = some a := by
  have h1 : ¬ (rx = 0 ∨ ry = 0) := by
    rintro (h | h)
    · exact hx0 h
    · exact hy0 h
  have h2 : ¬ (ry = 0 ∨ rx = 0) := by
    rintro (h | h)
    · exact hy0 h
    · exact hx0 h
  have e1 : convert a X Y rates = some (a * rx / ry) := by
    unfold convert
    rw [hx, hy]
    simp [h1]
  have e2 : convert (a * rx / ry) Y X rates = some (a * rx / ry * ry / rx) := by
    unfold convert
    rw [hy, hx]
    simp [h2]
  rw [e1]
  show convert (a * rx / ry) Y X rates = some a
  rw [e2, div_mul_cancel₀ _ hy0, mul_div_cancel_right₀ _ hx0]

/-- Claim C4 counterexample: a conversion request whose currency has no entry
in the rate set does not fail; `convertFromRon` returns the unconverted RON
amount (a numeric value), contradicting the claim that no numeric value is
returned and the valuation aborts with UnsupportedCurrencyError. -/
theorem convertFromRon_unresolvable_returns_amount :
    (fun _ : String => (none : Option ℚ)) ("EUR") = none ∧
    convertFromRon 100 ("EUR") (fun _ => none) = 100 := by
  constructor
  · rfl
  · simp [convertFromRon]

/-- Claim C4 (amended): in the frontend conversion helpers an unresolvable
currency (absent entry or falsy rate) does not abort and raises no error:
DashboardPage.convertFromRon returns the unconverted RON amount, and
ROIPanel.convertRon returns null. -/
theorem frontend_conversion_fallback (v : ℚ) (c : String) (rates : String → Option ℚ)
    (hc : c ≠ "RON") (h : rates c = none ∨ rates c = some 0) :
    convertFromRon v c rates = v ∧ convertRon (some v) c rates = none := by
  rcases h with h | h
  · exact ⟨convertFromRon_missing v c rates hc h, convertRon_missing v c rates hc h⟩
  · exact ⟨convertFromRon_zero_rate v c rates hc h, convertRon_zero_rate v c rates hc h⟩

/-- Witness for the amended claim C4 at the concrete input 100 EUR against an
empty rate set. -/
theorem frontend_conversion_fallback_witness :
    convertFromRon 100 ("EUR") (fun _ => none) = 100 ∧
    convertRon (some 100) ("EUR") (fun _ => none) = none :=
  frontend_conversion_fallback 100 ("EUR") (fun _ => none) (by decide) (Or.inl rfl)

/-- Claim C5: rate convention. Converting with target RON is the identity for
every rate set; converting a RON amount v to a non-RON currency with a present
nonzero rate r yields v / r; and for every supported (resolvable, nonzero-rate)
currency pair the round trip through `convert` returns the original amount
exactly (hence within any rounding tolerance). -/
theorem currency_rate_convention :
    (∀ (v : ℚ) (rates : String → Option ℚ), convertFromRon v ("RON") rates = v) ∧
    (∀ (v r : ℚ) (c : String) (rates : String → Option ℚ),
      c ≠ "RON" → rates c = some r → r ≠ 0 → convertFromRon v c rates = v / r) ∧
    (∀ (a rx ry : ℚ) (X Y : String) (rates : String → Option ℚ),
      rateToRon rates X = some rx → rateToRon rates Y = some ry → rx ≠ 0 → ry ≠ 0 →
      (convert a X Y rates).bind (fun b => convert b Y X rates) = some a) := by
  refine ⟨convertFromRon_ron, ?_, ?_⟩
  · intro v r c rates hc h hr
    exact convertFromRon_rate v r c rates hc h hr
  · intro a rx ry X Y rates hx hy hx0 hy0
    exact convert_roundtrip a rx ry X Y rates hx hy hx0 hy0

/-- Rate set used for concrete witnesses: EUR worth 5 RON, USD worth 4 RON. -/
def sampleRates : String → Option ℚ :=
  fun c => if c = "EUR" then some 5 else if c = "USD" then some 4 else none

/-- Witness for claim C5 at concrete inputs: RON identity at 7, RON→EUR at
rate 5 gives 7/5, and the EUR→USD→EUR round trip of 7 returns 7. -/
theorem currency_rate_convention_witness :
    convertFromRon 7 ("RON") sampleRates = 7 ∧
    convertFromRon 7 ("EUR") sampleRates = 7 / 5 ∧
    (convert 7 ("EUR") ("USD") sampleRates).bind
      (fun b => convert b ("USD") ("EUR") sampleRates) = some 7 :=
  ⟨currency_rate_convention.1 7 sampleRates,
   currency_rate_convention.2.1 7 5 ("EUR") sampleRates (by decide) rfl (by decide),
   currency_rate_convention.2.2 7 5 4 ("EUR") ("USD") sampleRates rfl rfl (by decide) (by decide)⟩

/-- Modelled from the spec: a snapshot as the ROI Calculator (spec 4.4) sees
it, its timestamp and its stored total value (one reporting currency shown;
the formula is identical per currency). The backend is not under src/. -/
structure ROISnapshot where
  takenAt : ℤ
  value : ℚ
deriving DecidableEq, Repr, Inhabited

/-- Modelled from the spec: an external cash flow in the ROI window, already
converted at the FX rate prevailing at the own date of the flow (spec 4.4). -/
structure ROICashFlow where
  date : ℤ
  amount : ℚ
deriving DecidableEq, Repr, Inhabited

/-- Modelled from the spec: the ROI result shape (mirrors ROIResponse in
src/unnamed/part_022), monetary fields nullable. -/
structure ROIResult where
  snapshot_count : ℕ
  period_start : Option ℤ
  period_end : Option ℤ
  start_value : Option ℚ
  end_value : Option ℚ
  net_cash_flow : Option ℚ
  absolute_gain : Option ℚ
  roi_percent : Option ℚ
deriving DecidableEq, Repr

/-- Modelled from the spec: the earliest snapshot in range (spec 4.4). -/
def earliestSnap (snaps : List ROISnapshot) : ROISnapshot :=
  snaps.foldl (fun a b => if b.takenAt < a.takenAt then b else a) (snaps.headD default)

/-- Modelled from the spec: the latest snapshot in range (spec 4.4). -/
def latestSnap (snaps : List ROISnapshot) : ROISnapshot :=
  snaps.foldl (fun a b => if a.takenAt < b.takenAt then b else a) (snaps.headD default)

/-- Modelled from the spec: net external cash flow, the signed sum of flows
strictly between the start and end snapshot dates (spec 4.4). -/
def netCashFlow (startT endT : ℤ) (flows : List ROICashFlow) : ℚ :=
  ((flows.filter (fun f => decide (startT < f.date ∧ f.date < endT))).map
    (fun f => f.amount)).sum

/-- Modelled from the spec: `computeROI` (spec 4.4) is not under src/. Fewer
than 2 snapshots gives the not-enough-data result with all monetary fields
null; otherwise start = earliest, end = latest snapshot in range,
absolute_gain = (end_value - start_value) - net_cash_flow, and
roi_percent = 100 * absolute_gain / start_value when start_value is nonzero,
else null. -/
def computeROI (snaps : List ROISnapshot) (flows : List ROICashFlow) : ROIResult :=
  if snaps.length < 2 then
    { snapshot_count := snaps.length, period_start := none, period_end := none,
      start_value := none, end_value := none, net_cash_flow := none,
      absolute_gain := none, roi_percent := none }
  else
    let s := earliestSnap snaps
    let e := latestSnap snaps
    let ncf := netCashFlow s.takenAt e.takenAt flows
    let gain := (e.value - s.value) - ncf
    { snapshot_count := snaps.length,
      period_start := some s.takenAt, period_end := some e.takenAt,
      start_value := some s.value, end_value := some e.value,
      net_cash_flow := some ncf, absolute_gain := some gain,
      roi_percent := if s.value = 0 then none else some (100 * gain / s.value) }

/-- Embeds the ROIResponse shape consumed by the ROI panel: the fields of
ROIResponse in src/unnamed/part_022, plus the `fx_rates` member that the older
panel in src/frontend/src/components/ROIPanel.tsx reads from its response. -/
structure ROIResponse where
  period_start : Option String
  period_end : Option String
  start_value_ron : Option ℚ
  start_value_eur : Option ℚ
  start_value_usd : Option ℚ
  end_value_ron : Option ℚ
  end_value_eur : Option ℚ
  end_value_usd : Option ℚ
  net_cash_flows_ron : Option ℚ
  net_cash_flows_eur : Option ℚ
  net_cash_flows_usd : Option ℚ
  stock_cash_flows_ron : Option ℚ
  stock_cash_flows_eur : Option ℚ
  stock_cash_flows_usd : Option ℚ
  absolute_gain_ron : Option ℚ
  absolute_gain_eur : Option ℚ
  absolute_gain_usd : Option ℚ
  roi_percent : Option ℚ
  snapshot_count : ℕ
  fx_rates : String → Option ℚ

/-- Embeds the not-enough-data branch of the ROIPanel consumer in
src/unnamed/part_011 (line 72): with no data, or when snapshot_count < 2, the
panel renders the not-enough-snapshots state. -/
def rendersNotEnoughData (data : Option ROIResponse) : Bool :=
  match data with
  | none => true
  | some d => decide (d.snapshot_count < 2)

/-- Claim C1: with at least 2 snapshots in range, start = earliest and
end = latest snapshot, computeROI satisfies
absolute_gain = (end_value - start_value) - net_cash_flow and
roi_percent = 100 * absolute_gain / start_value when start_value is nonzero,
else null; in particular start 1000 RON, one +500 RON flow in the window, end
1800 RON gives absolute_gain 300 and roi_percent 30. -/
theorem computeROI_gain_formula :
    (∀ (snaps : List ROISnapshot) (flows : List ROICashFlow), 2 ≤ snaps.length →
      (computeROI snaps flows).start_value = some (earliestSnap snaps).value ∧
      (computeROI snaps flows).end_value = some (latestSnap snaps).value ∧
      (computeROI snaps flows).absolute_gain =
        some (((latestSnap snaps).value - (earliestSnap snaps).value) -
          netCashFlow (earliestSnap snaps).takenAt (latestSnap snaps).takenAt flows) ∧
      (computeROI snaps flows).roi_percent =
        (if (earliestSnap snaps).value = 0 then none
         else some (100 * (((latestSnap snaps).value - (earliestSnap snaps).value) -
           netCashFlow (earliestSnap snaps).takenAt (latestSnap snaps).takenAt flows) /
           (earliestSnap snaps).value))) ∧
    (computeROI [⟨0, 1000⟩, ⟨10, 1800⟩] [⟨5, 500⟩]).absolute_gain = some 300 ∧
    (computeROI [⟨0, 1000⟩, ⟨10, 1800⟩] [⟨5, 500⟩]).roi_percent = some 30 := by
  have e : earliestSnap [⟨0, 1000⟩, ⟨10, 1800⟩] = ⟨0, 1000⟩ := by decide
  have l : latestSnap [⟨0, 1000⟩, ⟨10, 1800⟩] = ⟨10, 1800⟩ := by decide
  refine ⟨?_, ?_, ?_⟩
  · intro snaps flows h
    have h2 : ¬ snaps.length < 2 := by omega
    unfold computeROI
    rw [if_neg h2]
    exact ⟨rfl, rfl, rfl, rfl⟩
  · unfold computeROI
    norm_num [e, l, netCashFlow]
  · unfold computeROI
    norm_num [e, l, netCashFlow]

/-- Witness for claim C1 at the concrete two-snapshot input of the scenario,
discharging the length hypothesis there. -/
theorem computeROI_gain_formula_witness :
    2 ≤ ([⟨0, 1000⟩, ⟨10, 1800⟩] : List ROISnapshot).length ∧
    (computeROI [⟨0, 1000⟩, ⟨10, 1800⟩] [⟨5, 500⟩]).absolute_gain =
      some (((latestSnap [⟨0, 1000⟩, ⟨10, 1800⟩]).value -
        (earliestSnap [⟨0, 1000⟩, ⟨10, 1800⟩]).value) -
        netCashFlow (earliestSnap [⟨0, 1000⟩, ⟨10, 1800⟩]).takenAt
          (latestSnap [⟨0, 1000⟩, ⟨10, 1800⟩]).takenAt [⟨5, 500⟩]) :=
  ⟨by decide, (computeROI_gain_formula.1 [⟨0, 1000⟩, ⟨10, 1800⟩] [⟨5, 500⟩]
    (by decide)).2.2.1⟩

/-- Claim C2: with fewer than 2 snapshots in range, computeROI returns a
result (it is a total function) whose snapshot_count is below 2 and whose
monetary fields are all null; and the ROIPanel consumer with loaded data
renders the not-enough-data state exactly when snapshot_count < 2. -/
theorem computeROI_not_enough_data :
    (∀ (snaps : List ROISnapshot) (flows : List ROICashFlow), snaps.length < 2 →
      (computeROI snaps flows).snapshot_count = snaps.length ∧
      (computeROI snaps flows).snapshot_count < 2 ∧
      (computeROI snaps flows).period_start = none ∧
      (computeROI snaps flows).period_end = none ∧
      (computeROI snaps flows).start_value = none ∧
      (computeROI snaps flows).end_value = none ∧
      (computeROI snaps flows).net_cash_flow = none ∧
      (computeROI snaps flows).absolute_gain = none ∧
      (computeROI snaps flows).roi_percent = none) ∧
    (∀ d : ROIResponse, rendersNotEnoughData (some d) = true ↔ d.snapshot_count < 2) := by
  constructor
  · intro snaps flows h
    unfold computeROI
    rw [if_pos h]
    exact ⟨rfl, h, rfl, rfl, rfl, rfl, rfl, rfl, rfl⟩
  · intro d
    simp [rendersNotEnoughData]

/-- Witness for claim C2 at a concrete one-snapshot input. -/
theorem computeROI_not_enough_data_witness :
    ([⟨0, 1000⟩] : List ROISnapshot).length < 2 ∧
    (computeROI [⟨0, 1000⟩] []).roi_percent = none :=
  ⟨by decide, (computeROI_not_enough_data.1 [⟨0, 1000⟩] [] (by decide)).2.2.2.2.2.2.2.2⟩

/-- Embeds ChartDataPoint from src/frontend/src/types/snapshot.ts: a chart
point carries the three pre-converted totals in parallel. -/
structure ChartDataPoint where
  date : String
  total_ron : ℚ
  total_eur : ℚ
  total_usd : ℚ
deriving DecidableEq, Repr

/-- Embeds the value selection of `chartDataInDisplayCurrency` in
src/frontend/src/components/PortfolioChart.tsx (lines 44-53): the displayed
value is the pre-converted field matching the display currency. -/
def chartPointValue (displayCurrency : String) (p : ChartDataPoint) : ℚ :=
  if displayCurrency = "EUR" then p.total_eur
  else if displayCurrency = "USD" then p.total_usd
  else p.total_ron

/-- Embeds the stored totals of a snapshot record
(src/frontend/src/types/snapshot.ts SnapshotSummary and part_022). -/
structure SnapshotTotals where
  total_value_ron : ℚ
  total_value_eur : ℚ
  total_value_usd : ℚ
deriving DecidableEq, Repr

/-- Embeds the stored per-item values of a snapshot item
(src/frontend/src/types/snapshot.ts SnapshotItemRead). -/
structure SnapshotItemValues where
  value_ron : ℚ
  value_eur : ℚ
  value_usd : ℚ
deriving DecidableEq, Repr

/-- Embeds `getSnapshotTotal` from src/frontend/src/pages/HistoryPage.tsx
(lines 101-106, also src/unnamed/part_013): selects the pre-stored currency
value captured at snapshot time. -/
def getSnapshotTotal (displayCurrency : String) (s : SnapshotTotals) : ℚ :=
  if displayCurrency = "EUR" then s.total_value_eur
  else if displayCurrency = "USD" then s.total_value_usd
  else s.total_value_ron

/-- Embeds `convertValue` from src/frontend/src/pages/HistoryPage.tsx
(lines 108-113, also src/unnamed/part_013 lines 110-116): selects the
pre-converted value stored on the snapshot item. -/
def convertValue (displayCurrency : String) (item : SnapshotItemValues) : ℚ :=
  if displayCurrency = "EUR" then item.value_eur
  else if displayCurrency = "USD" then item.value_usd
  else item.value_ron

/-- Embeds `pick` from src/unnamed/part_011 (lines 17-21): picks the
pre-stored historical currency field of the ROI response. -/
def pick (currency : String) (ron eur usd : Option ℚ) : Option ℚ :=
  if currency = "EUR" then eur else if currency = "USD" then usd else ron

/-- Embeds the starting-value display pipeline of
src/frontend/src/components/ROIPanel.tsx (line 82): the shown value is
`convertRon(data.start_value_ron, displayCurrency, data.fx_rates)`, a
re-derivation from the RON field by rate division. -/
def roiPanelTsxStartDisplay (d : ROIResponse) (displayCurrency : String) : Option ℚ :=
  convertRon d.start_value_ron displayCurrency d.fx_rates

/-- Embeds the starting-value display of the panel in src/unnamed/part_011
(line 90): the shown value is the pre-stored field for the currency. -/
def roiPanelPickStartDisplay (d : ROIResponse) (displayCurrency : String) : Option ℚ :=
  pick displayCurrency d.start_value_ron d.start_value_eur d.start_value_usd

/-- ROI response used to exhibit the re-derivation in ROIPanel.tsx: the
pre-stored EUR start value is 21 but the RON value 100 divided by the current
EUR rate 5 gives 20. -/
def rederivedROIExample : ROIResponse :=
  { period_start := none, period_end := none,
    start_value_ron := some 100, start_value_eur := some 21, start_value_usd := some 25,
    end_value_ron := none, end_value_eur := none, end_value_usd := none,
    net_cash_flows_ron := none, net_cash_flows_eur := none, net_cash_flows_usd := none,
    stock_cash_flows_ron := none, stock_cash_flows_eur := none, stock_cash_flows_usd := none,
    absolute_gain_ron := none, absolute_gain_eur := none, absolute_gain_usd := none,
    roi_percent := some 3, snapshot_count := 4,
    fx_rates := fun c => if c = "EUR" then some 5 else none }

/-- Claim C6 counterexample: the consumer in
src/frontend/src/components/ROIPanel.tsx does not select the pre-stored EUR
field; it re-derives the display value from the RON field by dividing by the
current rate, and on this response the two differ (20 vs 21). -/
theorem roiPanelTsx_rederives_counterexample :
    roiPanelTsxStartDisplay rederivedROIExample ("EUR") = some 20 ∧
    rederivedROIExample.start_value_eur = some 21 ∧
    roiPanelTsxStartDisplay rederivedROIExample ("EUR") ≠
      rederivedROIExample.start_value_eur := by
  have h1 : roiPanelTsxStartDisplay rederivedROIExample ("EUR") = some 20 := by
    unfold roiPanelTsxStartDisplay rederivedROIExample convertRon
    simp
    norm_num
  refine ⟨h1, rfl, ?_⟩
  rw [h1]
  decide

/-- Claim C6 (amended): values are carried as three parallel pre-converted
fields {ron, eur, usd}, and the chart, history and pick-based ROI consumers
select the pre-stored field matching the display currency; however, the
fx_rates-based ROI panel (src/frontend/src/components/ROIPanel.tsx) instead
re-derives EUR/USD display values from the RON field by dividing by a current
rate, so not every consumer uses the pre-stored field. -/
theorem reporting_currency_field_selection :
    (∀ p : ChartDataPoint,
      chartPointValue ("RON") p = p.total_ron ∧
      chartPointValue ("EUR") p = p.total_eur ∧
      chartPointValue ("USD") p = p.total_usd) ∧
    (∀ s : SnapshotTotals,
      getSnapshotTotal ("RON") s = s.total_value_ron ∧
      getSnapshotTotal ("EUR") s = s.total_value_eur ∧
      getSnapshotTotal ("USD") s = s.total_value_usd) ∧
    (∀ item : SnapshotItemValues,
      convertValue ("RON") item = item.value_ron ∧
      convertValue ("EUR") item = item.value_eur ∧
      convertValue ("USD") item = item.value_usd) ∧
    (∀ d : ROIResponse,
      roiPanelPickStartDisplay d ("RON") = d.start_value_ron ∧
      roiPanelPickStartDisplay d ("EUR") = d.start_value_eur ∧
      roiPanelPickStartDisplay d ("USD") = d.start_value_usd) ∧
    (∀ (d : ROIResponse) (v r : ℚ), d.start_value_ron = some v →
      d.fx_rates ("EUR") = some r → r ≠ 0 →
      roiPanelTsxStartDisplay d ("EUR") = some (v / r)) := by
  refine ⟨?_, ?_, ?_, ?_, ?_⟩
  · intro p
    refine ⟨?_, ?_, ?_⟩ <;> simp [chartPointValue]
  · intro s
    refine ⟨?_, ?_, ?_⟩ <;> simp [getSnapshotTotal]
  · intro item
    refine ⟨?_, ?_, ?_⟩ <;> simp [convertValue]
  · intro d
    refine ⟨?_, ?_, ?_⟩ <;> simp [roiPanelPickStartDisplay, pick]
  · intro d v r hv hr hr0
    simp [roiPanelTsxStartDisplay, convertRon, hv, hr, hr0]

/-- Witness for the amended claim C6: the re-derivation conjunct applied to
the concrete example response (100 RON at EUR rate 5 shows 20). -/
theorem reporting_currency_field_selection_witness :
    roiPanelTsxStartDisplay rederivedROIExample ("EUR") = some (100 / 5) :=
  reporting_currency_field_selection.2.2.2.2 rederivedROIExample 100 5 rfl rfl
    (by norm_num)

/-- Current, non-snapshot state visible to a rendering run: the live FX rate
set and the live holding values. The historical display path of HistoryPage
reads neither. -/
structure CurrentEnv where
  fxRates : String → Option ℚ
  holdingValuesRon : List ℚ

/-- Embeds the HistoryPage snapshot-total rendering: the displayed total
calls `getSnapshotTotal`, which reads only the display currency and the
stored fields of the snapshot record, never the current environment. -/
def displayedSnapshotTotal (_env : CurrentEnv) (displayCurrency : String)
    (s : SnapshotTotals) : ℚ :=
  getSnapshotTotal displayCurrency s

/-- Embeds the HistoryPage item-value rendering: the displayed item value
calls `convertValue`, which reads only the display currency and the stored
fields of the item, never the current environment. -/
def displayedItemValue (_env : CurrentEnv) (displayCurrency : String)
    (item : SnapshotItemValues) : ℚ :=
  convertValue displayCurrency item

/-- Claim C10: the displayed value of a committed snapshot and of each of its
items depends only on the stored snapshot fields and the chosen display
currency: two runs under different current FX rates or holdings display
identical historical values. -/
theorem snapshot_display_noninterference :
    ∀ (env1 env2 : CurrentEnv) (displayCurrency : String),
      (∀ s : SnapshotTotals,
        displayedSnapshotTotal env1 displayCurrency s =
          displayedSnapshotTotal env2 displayCurrency s) ∧
      (∀ item : SnapshotItemValues,
        displayedItemValue env1 displayCurrency item =
          displayedItemValue env2 displayCurrency item) := by
  intro env1 env2 displayCurrency
  exact ⟨fun s => rfl, fun item => rfl⟩

/-- Modelled from the spec: an allocation-group member as seen by the backend
Allocation Analyzer (spec 4.5), which is not under src/: its target percentage
and its current value already converted to the display currency. -/
structure AllocationInput where
  target_percentage : ℚ
  current_value : ℚ
deriving DecidableEq, Repr

/-- Modelled from the spec: the per-member analysis output (mirrors
AllocationMemberAnalysis in src/unnamed/part_022). -/
structure MemberAnalysis where
  current_value : ℚ
  current_percentage : ℚ
  target_percentage : ℚ
  difference : ℚ
  suggestion_value : ℚ
deriving DecidableEq, Repr

/-- Modelled from the spec: per-member analysis (spec 4.5):
current_percentage = current_value / group_total * 100,
difference = target_percentage - current_percentage (percentage points),
suggestion_value = (difference / 100) * group_total. -/
def analyzeMember (groupTotal : ℚ) (m : AllocationInput) : MemberAnalysis :=
  let curPct := m.current_value / groupTotal * 100
  let diff := m.target_percentage - curPct
  { current_value := m.current_value, current_percentage := curPct,
    target_percentage := m.target_percentage, difference := diff,
    suggestion_value := diff / 100 * groupTotal }

/-- Modelled from the spec: group analysis applies `analyzeMember` to every
member with the group total being the sum of member current values. -/
def analyzeGroup (members : List AllocationInput) : List MemberAnalysis :=
  let total := (members.map (fun m => m.current_value)).sum
  members.map (analyzeMember total)

/-- Claim C3: in a group with nonzero total value each analyzed member
satisfies current_percentage = current_value / group_total * 100,
difference = target_percentage - current_percentage in percentage points, and
suggestion_value = (difference / 100) * group_total; in particular a
two-member group targeted 50/50 valued 800/200 yields for member A
current 80 percent, difference -30 points, suggestion -300 (and for member B
20 percent, +30 points, +300). -/
theorem allocation_analysis_formulas :
    (∀ (groupTotal : ℚ) (m : AllocationInput), groupTotal ≠ 0 →
      (analyzeMember groupTotal m).current_percentage =
        m.current_value / groupTotal * 100 ∧
      (analyzeMember groupTotal m).difference =
        m.target_percentage - (analyzeMember groupTotal m).current_percentage ∧
      (analyzeMember groupTotal m).suggestion_value =
        (analyzeMember groupTotal m).difference / 100 * groupTotal) ∧
    analyzeGroup [⟨50, 800⟩, ⟨50, 200⟩] =
      [⟨800, 80, 50, -30, -300⟩, ⟨200, 20, 50, 30, 300⟩] := by
  constructor
  · intro groupTotal m _
    exact ⟨rfl, rfl, rfl⟩
  · unfold analyzeGroup analyzeMember
    norm_num

/-- Witness for claim C3 at member A of the 50/50 scenario with group total
1000, discharging the nonzero-total hypothesis there. -/
theorem allocation_analysis_formulas_witness :
    (analyzeMember 1000 ⟨50, 800⟩).current_percentage = 800 / 1000 * 100 ∧
    (analyzeMember 1000 ⟨50, 800⟩).difference =
      50 - (analyzeMember 1000 ⟨50, 800⟩).current_percentage ∧
    (analyzeMember 1000 ⟨50, 800⟩).suggestion_value =
      (analyzeMember 1000 ⟨50, 800⟩).difference / 100 * 1000 :=
  allocation_analysis_formulas.1 1000 ⟨50, 800⟩ (by norm_num)

/-- Embeds `validatePercentageSum` from
src/frontend/src/components/AllocationGroupDialog.tsx (lines 102-106): the
selection is valid when the target percentages sum to within 99.9 and 100.1
inclusive. -/
def validatePercentageSum (selected : List (String × ℚ)) : Bool × ℚ :=
  let total := (selected.map (fun p => p.2)).foldl (fun sum pct => sum + pct) 0
  (decide ((99.9 : ℚ) ≤ total ∧ total ≤ (100.1 : ℚ)), total)

/-- Outcome of the save handler: either the member list is submitted to
`assignAllocations`, or an error message is set and nothing is submitted. -/
inductive SaveOutcome where
  | submitted (members : List (String × ℚ))
  | errorSet (msg : String)
deriving DecidableEq, Repr

/-- Embeds `handleSave` from
src/frontend/src/components/AllocationGroupDialog.tsx (lines 108-137): if the
percentage sum is invalid it sets an error and returns without submitting;
otherwise it submits the selected members. -/
def handleSave (selected : List (String × ℚ)) : SaveOutcome :=
  if (validatePercentageSum selected).1 then
    SaveOutcome.submitted selected
  else
    SaveOutcome.errorSet ("Target percentages must sum to 100%")

/-- Claim C7: for every selection, handleSave submits the assignment if and
only if the sum of the target percentages lies in the closed interval
[99.9, 100.1]; otherwise it sets an error and submits nothing. -/
theorem allocation_sum_gate :
    ∀ selected : List (String × ℚ),
      (handleSave selected = SaveOutcome.submitted selected ↔
        ((99.9 : ℚ) ≤ (selected.map (fun p => p.2)).foldl (fun sum pct => sum + pct) 0 ∧
          (selected.map (fun p => p.2)).foldl (fun sum pct => sum + pct) 0 ≤ (100.1 : ℚ))) ∧
      (¬ ((99.9 : ℚ) ≤ (selected.map (fun p => p.2)).foldl (fun sum pct => sum + pct) 0 ∧
          (selected.map (fun p => p.2)).foldl (fun sum pct => sum + pct) 0 ≤ (100.1 : ℚ)) →
        handleSave selected = SaveOutcome.errorSet ("Target percentages must sum to 100%")) := by
  intro selected
  constructor
  · unfold handleSave validatePercentageSum
    by_cases h : ((99.9 : ℚ) ≤ (selected.map (fun p => p.2)).foldl (fun sum pct => sum + pct) 0 ∧
        (selected.map (fun p => p.2)).foldl (fun sum pct => sum + pct) 0 ≤ (100.1 : ℚ))
    · simp [h]
    · simp [h]
  · intro h
    unfold handleSave validatePercentageSum
    simp [h]

/-- Witness for claim C7 at a concrete valid selection summing to 100. -/
theorem allocation_sum_gate_witness :
    handleSave [(("stock-1"), 60), (("manual-2"), 40)] =
      SaveOutcome.submitted [(("stock-1"), 60), (("manual-2"), 40)] :=
  (allocation_sum_gate [(("stock-1"), 60), (("manual-2"), 40)]).1.mpr (by norm_num)

/-- Embeds TransactionRead from src/frontend/src/types/transaction.ts. -/
structure TransactionRead where
  id : ℕ
  holding_id : ℕ
  date : String
  shares : ℚ
  price_per_share : ℚ
  notes : Option String
deriving DecidableEq, Repr

/-- Embeds TransactionUpdate from src/frontend/src/types/transaction.ts
(lines 8-12): the update payload can carry only date, price_per_share and
notes; it has no field for shares or for the holding reference. -/
structure TransactionUpdate where
  date : Option String
  price_per_share : Option ℚ
  notes : Option String
deriving DecidableEq, Repr

/-- Modelled from the spec: applying a TransactionUpdate payload to a stored
transaction (the backend PATCH handler is not under src/); each field present
in the payload replaces the stored one, everything else is kept. The payload
type in src/frontend/src/types/transaction.ts allows only date,
price_per_share and notes. -/
def applyTransactionUpdate (t : TransactionRead) (u : TransactionUpdate) : TransactionRead :=
  { t with
    date := u.date.getD t.date,
    price_per_share := u.price_per_share.getD t.price_per_share,
    notes := match u.notes with | none => t.notes | some n => some n }

/-- Claim C8: under every transaction update only date, price_per_share and
notes may change; the shares amount, the holding reference and the identity
of the transaction stay unchanged. -/
theorem transaction_update_frame :
    ∀ (t : TransactionRead) (u : TransactionUpdate),
      (applyTransactionUpdate t u).shares = t.shares ∧
      (applyTransactionUpdate t u).holding_id = t.holding_id ∧
      (applyTransactionUpdate t u).id = t.id := by
  intro t u
  exact ⟨rfl, rfl, rfl⟩

/-- Embeds the rounding step of the equal-distribution default in
src/frontend/src/components/AllocationGroupDialog.tsx (line 84),
Math.round((100 / count) * 10) / 10, with Math.round(x) = floor(x + 1/2) for
the nonnegative values arising here. -/
def defaultPct (count : ℕ) : ℚ :=
  ((Int.floor ((100 / (count : ℚ)) * 10 + 1 / 2) : ℤ) : ℚ) / 10

/-- Embeds `toggleHolding` from
src/frontend/src/components/AllocationGroupDialog.tsx (lines 76-92): if the
key is already selected it is removed; otherwise the new key is added and
every selected entry, new and old alike, is reset to the equal-distribution
default for the new count. -/
def toggleHolding (key : String) (selected : List (String × ℚ)) : List (String × ℚ) :=
  if (List.lookup key selected).isSome then
    selected.filter (fun p => p.1 != key)
  else
    let pct := defaultPct (selected.length + 1)
    selected.map (fun p => (p.1, pct)) ++ [(key, pct)]

/-- Claim C9: every toggle that adds a holding resets all selected holdings
to the identical default Math.round((100 / count) * 10) / 10 for the new
count, discarding prior per-member edits; and for count 6 the default is 16.7,
whose sum 100.2 falls outside the [99.9, 100.1] tolerance enforced by
`validatePercentageSum`. -/
theorem toggle_add_resets_targets :
    (∀ (key : String) (selected : List (String × ℚ)),
      List.lookup key selected = none →
      toggleHolding key selected =
        selected.map (fun p => (p.1, defaultPct (selected.length + 1))) ++
          [(key, defaultPct (selected.length + 1))] ∧
      ∀ q ∈ toggleHolding key selected, q.2 = defaultPct (selected.length + 1)) ∧
    defaultPct 6 = 16.7 ∧
    6 * defaultPct 6 = 100.2 ∧
    ¬ ((99.9 : ℚ) ≤ 6 * defaultPct 6 ∧ 6 * defaultPct 6 ≤ (100.1 : ℚ)) := by
  have d6 : defaultPct 6 = 16.7 := by
    unfold defaultPct
    norm_num
  refine ⟨?_, d6, ?_, ?_⟩
  · intro key selected h
    have hs : ¬ (List.lookup key selected).isSome = true := by
      rw [h]
      simp
    constructor
    · unfold toggleHolding
      rw [if_neg hs]
    · intro q hq
      unfold toggleHolding at hq
      rw [if_neg hs] at hq
      rcases List.mem_append.mp hq with hq | hq
      · rcases List.mem_map.mp hq with ⟨p, _, hp⟩
        rw [← hp]
      · rw [List.mem_singleton.mp hq]
  · rw [d6]
    norm_num
  · rw [d6]
    norm_num

/-- Witness for claim C9 at a concrete add: toggling a second holding onto a
selection holding one edited target resets both entries to 50. -/
theorem toggle_add_resets_targets_witness :
    toggleHolding ("stock-2") [(("stock-1"), 30)] =
      [(("stock-1"), defaultPct 2), (("stock-2"), defaultPct 2)] :=
  (toggle_add_resets_targets.1 ("stock-2") [(("stock-1"), 30)] (by decide)).1

end VFinance
